import Mathlib

/-!
# Verification of the stationxml-rs fixture-validation harness

Shallow embedding of `pyscripts/src/pyscripts/generate_vectors.py`: fixture
discovery via `sorted(FIXTURES_DIR.glob("*.xml"))`, per-fixture
well-formedness checking (`validate_xml_well_formed`), oracle semantic
checking (`validate_with_obspy`), and result aggregation with the process
exit behaviour (`main`).

Modelling conventions:

* printed output is modelled as a list of printed lines; blank separator
  lines and the two directory-banner lines are elided;
* `ET.parse(path)` is modelled by a `ParseEvent` describing what the stdlib
  parser does on that path: success, an `xml.etree.ElementTree.ParseError`,
  or an exception of any other class (for instance `IsADirectoryError` when
  the globbed entry is a directory named `*.xml`, or a `PermissionError` on
  an unreadable file — `Path.glob` returns any matching entry and does not
  check readability);
* the body of the `try` block of `validate_with_obspy`
  (`from obspy import read_inventory` followed by `read_inventory(str(path))`)
  is modelled by an `OracleEvent` saying where it succeeds or raises; the
  `except ImportError` and `except Exception` clauses dispatch on the class
  of the raised exception, exactly as Python does, regardless of which
  statement of the body raised it;
* a raised exception that no `except` clause matches propagates; an
  exception that escapes `main` terminates the interpreter with exit
  status 1, the same status `raise SystemExit(1)` produces, while a normal
  return from `main` gives exit status 0.
-/

namespace GenerateVectors

/-- A station of an ObsPy inventory. The harness only ever counts stations,
so the station's own metadata is irrelevant; the code identifies it suffices. -/
structure Station where
  code : String
deriving DecidableEq, Repr

/-- A network of an ObsPy inventory: `net.stations` is its station list. -/
structure Network where
  stations : List Station
deriving DecidableEq, Repr

/-- The inventory object returned by `read_inventory`: `inv.networks` is its
network list. -/
structure Inventory where
  networks : List Network
deriving DecidableEq, Repr

/-- Outcome of `ET.parse(path)` inside `validate_xml_well_formed`: the parse
succeeds, raises `xml.etree.ElementTree.ParseError` with a diagnostic, or
raises an exception of some other class (an I/O error such as
`IsADirectoryError` or `PermissionError`). -/
inductive ParseEvent where
  | ok
  | parseError (msg : String)
  | otherError (msg : String)
deriving DecidableEq, Repr

/-- Where the `try` body of `validate_with_obspy` succeeds or raises:
the `from obspy import read_inventory` statement may raise `ImportError`
(obspy absent or incompatible); otherwise `read_inventory(str(path))` either
returns an inventory, itself raises an `ImportError` (a lazily imported
submodule missing), or raises an `Exception` of another class (obspy's
domain-level rejection of the document). -/
inductive OracleEvent where
  | importUnavailable (msg : String)
  | readRaisesImportError (msg : String)
  | readReturns (inv : Inventory)
  | readRaises (msg : String)
deriving DecidableEq, Repr

/-- The class of a raised Python exception, to the extent the `except`
clauses of `validate_with_obspy` distinguish classes: `ImportError` versus
every other `Exception`. -/
inductive PyExc where
  | importError (msg : String)
  | otherException (msg : String)
deriving DecidableEq, Repr

/-- The `try` body of `validate_with_obspy` — import, then
`read_inventory` — as the value it returns or the exception it raises.
The raise site is forgotten; only the exception's class remains, which is
all the `except` clauses can see. -/
def oracleBody : OracleEvent → Except PyExc Inventory
  | .importUnavailable m => .error (.importError m)
  | .readRaisesImportError m => .error (.importError m)
  | .readReturns inv => .ok inv
  | .readRaises m => .error (.otherException m)

/-- How many times one execution of the `try` body of `validate_with_obspy`
invokes the oracle capability `read_inventory`: zero when the import itself
fails, one otherwise. -/
def OracleEvent.readCalls : OracleEvent → Nat
  | .importUnavailable _ => 0
  | .readRaisesImportError _ => 1
  | .readReturns _ => 1
  | .readRaises _ => 1

/-- `validate_xml_well_formed`: runs `ET.parse(path)` under
`except ET.ParseError`. A `ParseError` is caught, printed as `  FAIL: ...`
and turned into the return value `False`; an exception of any other class
matches no `except` clause and propagates (the `Except.error` case). -/
def validate_xml_well_formed : ParseEvent → Except String (Bool × List String)
  | .ok => .ok (true, [])
  | .parseError e => .ok (false, ["  FAIL: " ++ e])
  | .otherError e => .error e

/-- `validate_with_obspy`: runs the oracle body under `except ImportError`
(print the skip notice, return `True`) and `except Exception` (print the
oracle's message, return `False`). On success it prints the network count
`len(inv.networks)` and the station count
`sum(len(net.stations) for net in inv.networks)`, a running sum over the
networks, and returns `True`. The result is the returned boolean paired
with the printed lines. -/
def validate_with_obspy (ev : OracleEvent) : Bool × List String :=
  match oracleBody ev with
  | .ok inv =>
    let net_count := inv.networks.length
    let sta_count := inv.networks.foldl (fun acc net => acc + net.stations.length) 0
    (true, ["  ObsPy OK: " ++ toString net_count ++ " networks, "
            ++ toString sta_count ++ " stations"])
  | .error (.importError _) =>
    (true, ["  ObsPy not available, skipping ObsPy validation"])
  | .error (.otherException e) =>
    (false, ["  ObsPy FAIL: " ++ e])

/-- One entry of the fixtures directory, as the harness can observe it: its
file name, what `ET.parse` does on it, and what the oracle body does on it. -/
structure Fixture where
  name : String
  parse : ParseEvent
  oracle : OracleEvent
deriving DecidableEq, Repr

/-- Membership test of `FIXTURES_DIR.glob("*.xml")` on an entry name:
`fnmatch` semantics of the pattern `*.xml`, i.e. the name ends with the four
characters `.xml`, case-sensitively. (`pathlib` globbing does not
special-case dotfiles, does not fold case on POSIX, and matches directories
as well as regular files.) -/
def matchesXmlPattern (name : String) : Bool :=
  name.takeRight 4 == ".xml"

/-- The order `sorted` sorts by: CPython compares the globbed `Path`s
componentwise, and they share every component but the file name, so the
order is comparison of the name strings, which CPython performs
lexicographically by Unicode code point — the lexicographic order on the
names' character lists. -/
def nameLe (a b : String) : Prop :=
  a.data ≤ b.data

instance : DecidableRel nameLe :=
  fun a b => inferInstanceAs (Decidable (a.data ≤ b.data))

/-- `nameLe` lifted to directory entries: how `sorted` compares two globbed
fixture paths. -/
def fixtureLe (a b : Fixture) : Prop :=
  nameLe a.name b.name

instance : DecidableRel fixtureLe :=
  fun a b => inferInstanceAs (Decidable (nameLe a.name b.name))

/-- `sorted(FIXTURES_DIR.glob("*.xml"))` at the level of entry names: the
directory entries matching the pattern, sorted lexicographically by name.
CPython's `sorted` is a stable sort; it is modelled by insertion sort, which
is also stable, so the two agree on every input list. -/
def discover (entries : List String) : List String :=
  List.insertionSort nameLe (entries.filter (fun n => matchesXmlPattern n))

/-- The `fixture_files` list of `main` — `sorted(FIXTURES_DIR.glob("*.xml"))` —
carrying each discovered entry's behaviour: the entries matching the pattern,
sorted by name (stable, like `sorted`; see `discover`). -/
def fixtureFiles (dir : List Fixture) : List Fixture :=
  List.insertionSort fixtureLe (dir.filter (fun f => matchesXmlPattern f.name))

/-- What the loop of `main` records for one fixture: the boolean folded into
`all_ok`, the number of `read_inventory` calls made for this fixture, and the
lines printed for it. -/
structure FixtureOutcome where
  ok : Bool
  oracleCalls : Nat
  log : List String
deriving DecidableEq, Repr

/-- The body of `for path in fixture_files:` for one fixture: print the name
header, run `validate_xml_well_formed` and, only when it returned `True`,
print the well-formed notice and run `validate_with_obspy`. An exception
escaping `validate_xml_well_formed` propagates out of the loop
(the `Except.error` case). -/
def processFixture (f : Fixture) : Except String FixtureOutcome :=
  match validate_xml_well_formed f.parse with
  | .error e => .error e
  | .ok (wfOk, wfLog) =>
    if wfOk then
      let (oracleOk, oracleLog) := validate_with_obspy f.oracle
      .ok { ok := oracleOk
            oracleCalls := f.oracle.readCalls
            log := ["  " ++ f.name ++ ":"] ++ wfLog
                   ++ ["  XML well-formed: OK"] ++ oracleLog }
    else
      .ok { ok := false
            oracleCalls := 0
            log := ["  " ++ f.name ++ ":"] ++ wfLog }

/-- Observable result of one run: the process exit status, whether the run
died of an uncaught exception, how many fixtures had an outcome recorded,
and the printed lines. -/
structure RunReport where
  exitCode : Nat
  aborted : Bool
  processed : Nat
  log : List String
deriving DecidableEq, Repr

/-- The fixture loop of `main` together with the trailing verdict, starting
from an accumulated `all_ok`, processed count and printed lines. On normal
completion it prints `All fixtures valid.` and returns (exit status 0) or
prints `Some fixtures failed validation!` and raises `SystemExit(1)` (exit
status 1); an exception escaping a fixture's checks aborts the interpreter
with exit status 1. -/
def runLoop : List Fixture → Bool → Nat → List String → RunReport
  | [], all_ok, processed, log =>
    if all_ok then
      { exitCode := 0, aborted := false, processed := processed
        log := log ++ ["All fixtures valid."] }
    else
      { exitCode := 1, aborted := false, processed := processed
        log := log ++ ["Some fixtures failed validation!"] }
  | f :: rest, all_ok, processed, log =>
    match processFixture f with
    | .error _ =>
      { exitCode := 1, aborted := true, processed := processed, log := log }
    | .ok out => runLoop rest (all_ok && out.ok) (processed + 1) (log ++ out.log)

/-- `main`, from the fixtures-directory listing onwards (the two `mkdir`
calls and the banner prints are elided as pure I/O preamble): discover the
fixture files; when none are found, print `No fixture files found.` and
return (exit status 0); otherwise print the count and run the loop with
`all_ok = True`. -/
def main (dir : List Fixture) : RunReport :=
  let fixture_files := fixtureFiles dir
  if fixture_files.isEmpty then
    { exitCode := 0, aborted := false, processed := 0
      log := ["No fixture files found."] }
  else
    runLoop fixture_files true 0
      ["Validating " ++ toString fixture_files.length ++ " fixture(s):"]

/-- A fixture passes all applicable checks: its loop body completes without
an uncaught exception and contributes `True` to `all_ok`. -/
def fixturePasses (f : Fixture) : Bool :=
  match processFixture f with
  | .ok out => out.ok
  | .error _ => false

/-- A well-formed fixture that obspy parses into two networks holding two
stations and one station respectively. -/
def goodFixture : Fixture :=
  ⟨"good.xml", ParseEvent.ok,
   OracleEvent.readReturns ⟨[⟨[⟨"S1"⟩, ⟨"S2"⟩]⟩, ⟨[⟨"S3"⟩]⟩]⟩⟩

/-- A malformed fixture: `ET.parse` raises a `ParseError`. -/
def badFixture : Fixture :=
  ⟨"bad.xml", ParseEvent.parseError "no element found: line 1, column 0",
   OracleEvent.readReturns ⟨[]⟩⟩

/-- A well-formed fixture that obspy loads but rejects with a domain error. -/
def rejectedFixture : Fixture :=
  ⟨"rejected.xml", ParseEvent.ok, OracleEvent.readRaises "Invalid Inventory"⟩

/-- A directory entry matching the glob pattern on which `ET.parse` raises an
exception that is not a `ParseError`: a subdirectory named `sub.xml`. -/
def directoryEntry : Fixture :=
  ⟨"sub.xml", ParseEvent.otherError "IsADirectoryError: Is a directory",
   OracleEvent.importUnavailable "No module named obspy"⟩

/-- A well-formed fixture in an environment without obspy installed. -/
def skippedFixture : Fixture :=
  ⟨"skipped.xml", ParseEvent.ok,
   OracleEvent.importUnavailable "No module named obspy"⟩

/-- A well-formed fixture whose `read_inventory` call itself raises an
`ImportError` (for example a lazily imported dependency missing). -/
def lateImportErrorFixture : Fixture :=
  ⟨"late.xml", ParseEvent.ok,
   OracleEvent.readRaisesImportError "No module named pkg_resources"⟩

/-- A directory holding one oracle-rejected fixture next to one passing
fixture. -/
def rejectionDir : List Fixture :=
  [rejectedFixture, goodFixture]

/-- Whether a parse event is an exception of a class other than
`ET.ParseError` — the events `validate_xml_well_formed` does not catch. -/
def ParseEvent.isOtherError : ParseEvent → Bool
  | .otherError _ => true
  | .ok => false
  | .parseError _ => false

/-- A directory holding a passing fixture `a.xml`, the subdirectory `sub.xml`
on which `validate_xml_well_formed` raises a non-`ParseError` exception, and a
fixture `z.xml` that would pass but sorts after the subdirectory. -/
def abortingDir : List Fixture :=
  [directoryEntry,
   ⟨"a.xml", ParseEvent.ok, OracleEvent.readReturns ⟨[]⟩⟩,
   ⟨"z.xml", ParseEvent.ok, OracleEvent.readReturns ⟨[]⟩⟩]

/-! ## Shared lemmas -/

/-- `nameLe` is comparison by the strings' characters, which agrees with the
lexicographic order on `String`. -/
theorem nameLe_iff_le (a b : String) : nameLe a b ↔ a ≤ b := by
  rw [String.le_iff_toList_le]
  exact Iff.rfl

/-- A fixture whose parse event is not an uncaught-exception event has its
loop body complete with a recorded outcome. -/
theorem processFixture_ne_error (f : Fixture)
    (h : f.parse.isOtherError = false) (e : String) :
    processFixture f ≠ Except.error e := by
  cases hp : f.parse with
  | ok => simp [processFixture, validate_xml_well_formed, hp]
  | parseError msg => simp [processFixture, validate_xml_well_formed, hp]
  | otherError msg => rw [hp] at h; exact absurd h (by simp [ParseEvent.isOtherError])

/-- A recorded outcome determines `fixturePasses`. -/
theorem fixturePasses_of_ok (f : Fixture) (out : FixtureOutcome)
    (h : processFixture f = Except.ok out) : fixturePasses f = out.ok := by
  simp [fixturePasses, h]

/-- The loop exit status is zero exactly when `all_ok` held on entry and every
remaining fixture passes its applicable checks. -/
theorem runLoop_exitCode_eq_zero (fs : List Fixture) (all_ok : Bool)
    (processed : Nat) (log : List String) :
    (runLoop fs all_ok processed log).exitCode = 0
      ↔ (all_ok = true ∧ ∀ f ∈ fs, fixturePasses f = true) := by
  induction fs generalizing all_ok processed log with
  | nil => cases all_ok <;> simp [runLoop]
  | cons f rest ih =>
    cases hpf : processFixture f with
    | error e =>
      have hfp : fixturePasses f = false := by simp [fixturePasses, hpf]
      simp [runLoop, hpf, hfp]
    | ok out =>
      have hfp : fixturePasses f = out.ok := fixturePasses_of_ok f out hpf
      simp [runLoop, hpf, ih, Bool.and_eq_true, hfp, and_assoc]

/-- The loop exit status is zero or one: normal completion returns or raises
`SystemExit(1)`, and an uncaught exception also ends the process with
status 1. -/
theorem runLoop_exitCode_zero_or_one (fs : List Fixture) (all_ok : Bool)
    (processed : Nat) (log : List String) :
    (runLoop fs all_ok processed log).exitCode = 0
      ∨ (runLoop fs all_ok processed log).exitCode = 1 := by
  induction fs generalizing all_ok processed log with
  | nil => cases all_ok <;> simp [runLoop]
  | cons f rest ih =>
    cases hpf : processFixture f with
    | error e => simp [runLoop, hpf]
    | ok out => simpa [runLoop, hpf] using ih (all_ok && out.ok) (processed + 1) _

/-- When no remaining fixture raises an uncaught exception, the loop completes
and records an outcome for each of them. -/
theorem runLoop_no_abort (fs : List Fixture) (all_ok : Bool)
    (processed : Nat) (log : List String)
    (h : ∀ f ∈ fs, f.parse.isOtherError = false) :
    (runLoop fs all_ok processed log).aborted = false
      ∧ (runLoop fs all_ok processed log).processed = processed + fs.length := by
  induction fs generalizing all_ok processed log with
  | nil => cases all_ok <;> simp [runLoop]
  | cons f rest ih =>
    cases hpf : processFixture f with
    | error e =>
      exact absurd hpf (processFixture_ne_error f (h f (List.mem_cons_self f rest)) e)
    | ok out =>
      have hrest : ∀ g ∈ rest, g.parse.isOtherError = false :=
        fun g hg => h g (List.mem_cons_of_mem f hg)
      have := ih (all_ok && out.ok) (processed + 1) (log ++ out.log) hrest
      refine ⟨by simpa [runLoop, hpf] using this.1, ?_⟩
      rw [runLoop]
      simp only [hpf]
      rw [this.2]
      simp [Nat.add_assoc, Nat.add_comm 1 rest.length]

/-- The exit status of `main` is zero exactly when no fixture was discovered
or every discovered fixture passes its applicable checks. -/
theorem main_exitCode_eq_zero_iff (dir : List Fixture) :
    (main dir).exitCode = 0
      ↔ (fixtureFiles dir = []
          ∨ ∀ f ∈ fixtureFiles dir, fixturePasses f = true) := by
  cases hemp : (fixtureFiles dir).isEmpty with
  | true =>
    have hnil : fixtureFiles dir = [] := by simpa using hemp
    simp [main, hemp, hnil]
  | false =>
    have hne : fixtureFiles dir ≠ [] := by
      intro hnil
      rw [hnil] at hemp
      simp at hemp
    simp [main, hemp, runLoop_exitCode_eq_zero, hne]

/-- The skip notice printed when obspy is absent differs from every line of
the form printed on an actual oracle pass. -/
theorem skip_notice_data_ne (l : List Char) :
    ("  ObsPy not available, skipping ObsPy validation").data
      ≠ ("  ObsPy OK: ").data ++ l := by
  intro h
  have ht := congrArg (List.take 9) h
  rw [List.take_append_eq_append_take] at ht
  have hlen : ("  ObsPy OK: ").data.length = 12 := by decide
  rw [hlen] at ht
  norm_num at ht
  exact absurd ht (by decide)

/-! ## Claim theorems -/

/-- C1: the process exit status is 0 exactly when every discovered fixture
passes all applicable checks or no fixture was discovered, and every other
run exits with the non-zero status 1 (`SystemExit(1)` on a recorded failure,
the interpreter's uncaught-exception status otherwise). -/
theorem exit_zero_iff_all_fixtures_pass (dir : List Fixture) :
    ((main dir).exitCode = 0 ∨ (main dir).exitCode = 1)
    ∧ ((main dir).exitCode = 0
        ↔ (fixtureFiles dir = []
            ∨ ∀ f ∈ fixtureFiles dir, fixturePasses f = true)) := by
  refine ⟨?_, main_exitCode_eq_zero_iff dir⟩
  cases hemp : (fixtureFiles dir).isEmpty with
  | true => simp [main, hemp]
  | false => simpa [main, hemp] using runLoop_exitCode_zero_or_one (fixtureFiles dir) true 0 _

/-- C2: a fixture whose well-formedness check fails has outcome failure, with
the parser diagnostic printed, and the oracle capability is invoked zero
times for it. -/
theorem malformed_fails_and_oracle_never_invoked (f : Fixture) (msg : String)
    (h : f.parse = ParseEvent.parseError msg) :
    processFixture f
      = Except.ok { ok := false, oracleCalls := 0,
                    log := ["  " ++ f.name ++ ":", "  FAIL: " ++ msg] } := by
  simp [processFixture, validate_xml_well_formed, h]

/-- Witness for C2 at a concrete malformed fixture. -/
theorem malformed_fails_and_oracle_never_invoked_witness :
    processFixture badFixture
      = Except.ok { ok := false, oracleCalls := 0,
                    log := ["  bad.xml:",
                            "  FAIL: no element found: line 1, column 0"] } := by
  have h := malformed_fails_and_oracle_never_invoked badFixture
    "no element found: line 1, column 0" rfl
  simpa using h

/-- C3: a well-formed fixture the oracle loads but rejects has outcome failure
with the oracle's message printed, and any run that discovers it — whatever
the other fixtures do — exits with a non-zero status. -/
theorem oracle_rejection_fails_fixture_and_run (dir : List Fixture)
    (f : Fixture) (msg : String) (hmem : f ∈ fixtureFiles dir)
    (hp : f.parse = ParseEvent.ok)
    (ho : f.oracle = OracleEvent.readRaises msg) :
    processFixture f
      = Except.ok { ok := false, oracleCalls := 1,
                    log := ["  " ++ f.name ++ ":", "  XML well-formed: OK",
                            "  ObsPy FAIL: " ++ msg] }
    ∧ (main dir).exitCode ≠ 0 := by
  have hpf : processFixture f
      = Except.ok { ok := false, oracleCalls := 1,
                    log := ["  " ++ f.name ++ ":", "  XML well-formed: OK",
                            "  ObsPy FAIL: " ++ msg] } := by
    simp [processFixture, validate_xml_well_formed, validate_with_obspy,
          oracleBody, OracleEvent.readCalls, hp, ho]
  refine ⟨hpf, ?_⟩
  intro h0
  rcases (main_exitCode_eq_zero_iff dir).mp h0 with hnil | hall
  · rw [hnil] at hmem
    exact absurd hmem (List.not_mem_nil f)
  · have hpass := hall f hmem
    rw [fixturePasses_of_ok f _ hpf] at hpass
    exact Bool.false_ne_true hpass

/-- Witness for C3: the rejected fixture fails and the two-fixture run, whose
other fixture passes, exits non-zero. -/
theorem oracle_rejection_fails_fixture_and_run_witness :
    processFixture rejectedFixture
      = Except.ok { ok := false, oracleCalls := 1,
                    log := ["  rejected.xml:", "  XML well-formed: OK",
                            "  ObsPy FAIL: Invalid Inventory"] }
    ∧ (main rejectionDir).exitCode ≠ 0 := by
  have h := oracle_rejection_fails_fixture_and_run rejectionDir rejectedFixture
    "Invalid Inventory" (by decide) rfl rfl
  exact ⟨by simpa using h.1, h.2⟩

/-- C4: a well-formed fixture whose oracle import fails has outcome success
with zero oracle-capability calls, the skip notice is printed, and that notice
is never among the lines printed on an actual oracle pass. -/
theorem oracle_unavailable_skipped_but_passing (f : Fixture) (m : String)
    (hp : f.parse = ParseEvent.ok)
    (ho : f.oracle = OracleEvent.importUnavailable m) :
    processFixture f
      = Except.ok { ok := true, oracleCalls := 0,
                    log := ["  " ++ f.name ++ ":", "  XML well-formed: OK",
                            "  ObsPy not available, skipping ObsPy validation"] }
    ∧ ∀ inv : Inventory,
        "  ObsPy not available, skipping ObsPy validation"
          ∉ (validate_with_obspy (OracleEvent.readReturns inv)).2 := by
  constructor
  · simp [processFixture, validate_xml_well_formed, validate_with_obspy,
          oracleBody, OracleEvent.readCalls, hp, ho]
  · intro inv hmem
    simp only [validate_with_obspy, oracleBody, List.mem_singleton] at hmem
    have hd := congrArg String.data hmem
    simp only [String.data_append, List.append_assoc] at hd
    exact skip_notice_data_ne _ hd

/-- Witness for C4 at a concrete well-formed fixture without obspy. -/
theorem oracle_unavailable_skipped_but_passing_witness :
    processFixture skippedFixture
      = Except.ok { ok := true, oracleCalls := 0,
                    log := ["  skipped.xml:", "  XML well-formed: OK",
                            "  ObsPy not available, skipping ObsPy validation"] }
    ∧ "  ObsPy not available, skipping ObsPy validation"
        ∉ (validate_with_obspy (OracleEvent.readReturns ⟨[]⟩)).2 := by
  have h := oracle_unavailable_skipped_but_passing skippedFixture
    "No module named obspy" rfl rfl
  exact ⟨by simpa using h.1, h.2 ⟨[]⟩⟩

/-- C5 as stated is false: `validate_xml_well_formed` catches only
`ET.ParseError`, so an exception of any other class raised by `ET.parse` —
here `IsADirectoryError` on the discovered subdirectory `sub.xml` — escapes
the fixture, aborts the run, and the later fixture `z.xml` is never
processed: only 1 of the 3 discovered fixtures gets an outcome. -/
theorem io_error_aborts_run_counterexample :
    (main abortingDir).aborted = true
    ∧ (main abortingDir).processed = 1
    ∧ (fixtureFiles abortingDir).length = 3 := by decide

/-- C5 (amended): every `ET.ParseError` raised by the well-formedness check
and every `Exception` raised during the oracle check is caught at the level of
the single fixture and converted into its recorded outcome; provided no
discovered fixture makes `ET.parse` raise an exception of a class other than
`ET.ParseError` (e.g. an I/O error), no error propagates up, and the run
processes every discovered fixture. -/
theorem errors_confined_without_io_errors (dir : List Fixture)
    (h : ∀ f ∈ fixtureFiles dir, f.parse.isOtherError = false) :
    (main dir).aborted = false
      ∧ (main dir).processed = (fixtureFiles dir).length := by
  cases hemp : (fixtureFiles dir).isEmpty with
  | true =>
    have hnil : fixtureFiles dir = [] := by simpa using hemp
    simp [main, hemp, hnil]
  | false =>
    have := runLoop_no_abort (fixtureFiles dir) true 0
      ["Validating " ++ toString (fixtureFiles dir).length ++ " fixture(s):"] h
    simpa [main, hemp] using this

/-- Witness for the amended C5: a run over a malformed and a passing fixture
completes without abort and records both outcomes. -/
theorem errors_confined_without_io_errors_witness :
    (main [badFixture, goodFixture]).aborted = false
      ∧ (main [badFixture, goodFixture]).processed
          = (fixtureFiles [badFixture, goodFixture]).length :=
  errors_confined_without_io_errors [badFixture, goodFixture] (by decide)

/-- C6: discovery returns exactly the entries matching the `*.xml` pattern,
sorted lexicographically by name, and its result is invariant under the
enumeration order of the directory, so two runs over the same unchanged
directory process fixtures in the identical order. -/
theorem discovery_exact_sorted_deterministic (entries : List String) :
    List.Sorted (· ≤ ·) (discover entries)
    ∧ (∀ name, name ∈ discover entries
        ↔ name ∈ entries ∧ matchesXmlPattern name = true)
    ∧ ∀ entries2, entries.Perm entries2 → discover entries = discover entries2 := by
  haveI : IsTrans String nameLe := ⟨fun _ _ _ h1 h2 => le_trans h1 h2⟩
  haveI : IsTotal String nameLe := ⟨fun a b => le_total a.data b.data⟩
  haveI : IsAntisymm String nameLe := ⟨fun _ _ h1 h2 => String.ext (le_antisymm h1 h2)⟩
  refine ⟨?_, ?_, ?_⟩
  · exact (List.sorted_insertionSort nameLe _).imp fun h => (nameLe_iff_le _ _).mp h
  · intro name
    simp [discover, List.mem_insertionSort, List.mem_filter]
  · intro entries2 hperm
    refine List.eq_of_perm_of_sorted (r := nameLe) ?_
      (List.sorted_insertionSort nameLe _) (List.sorted_insertionSort nameLe _)
    exact ((List.perm_insertionSort _ _).trans
      (hperm.filter _)).trans (List.perm_insertionSort _ _).symm

/-- C7: a run discovering zero fixtures short-circuits: it prints only the
no-fixtures message, records no outcome, performs no check, and exits with
status 0. -/
theorem no_fixtures_short_circuits (dir : List Fixture)
    (h : fixtureFiles dir = []) :
    main dir = { exitCode := 0, aborted := false, processed := 0,
                 log := ["No fixture files found."] } := by
  simp [main, h]

/-- Witness for C7: a directory whose only entry does not match the pattern. -/
theorem no_fixtures_short_circuits_witness :
    main [⟨"notes.txt", ParseEvent.ok, OracleEvent.readReturns ⟨[]⟩⟩]
      = { exitCode := 0, aborted := false, processed := 0,
          log := ["No fixture files found."] } :=
  no_fixtures_short_circuits _ (by decide)

/-- C8: on an oracle pass the reported network count is the number of
networks of the returned inventory and the reported station count is the sum,
over all networks, of the number of stations of each network. -/
theorem oracle_summary_counts (inv : Inventory) :
    validate_with_obspy (OracleEvent.readReturns inv)
      = (true, ["  ObsPy OK: " ++ toString inv.networks.length ++ " networks, "
                ++ toString ((inv.networks.map (fun net => net.stations.length)).sum)
                ++ " stations"]) := by
  have hsum : inv.networks.foldl (fun acc net => acc + net.stations.length) 0
      = (inv.networks.map (fun net => net.stations.length)).sum := by
    rw [List.sum_eq_foldl, List.foldl_map]
  simp [validate_with_obspy, oracleBody, hsum]

/-- C9: discovery matches the lowercase pattern `*.xml` only — an entry whose
extension reads `.xml` up to letter case but is spelled with at least one
uppercase letter is never discovered. -/
theorem uppercase_extension_not_discovered (entries : List String)
    (name : String)
    (_hcase : (name.takeRight 4).data.map Char.toLower = ".xml".data)
    (hne : name.takeRight 4 ≠ ".xml") :
    name ∉ discover entries := by
  intro hmem
  rw [discover, List.mem_insertionSort, List.mem_filter] at hmem
  exact hne (by simpa [matchesXmlPattern] using hmem.2)

/-- Witness for C9: `a.XML` sits in the directory but is not discovered. -/
theorem uppercase_extension_not_discovered_witness :
    "a.XML" ∉ discover ["a.XML", "b.xml"] :=
  uppercase_extension_not_discovered ["a.XML", "b.xml"] "a.XML"
    (by decide) (by decide)

/-- C10: an `ImportError` raised from inside the oracle's own parsing call is
handled exactly like one raised by the import itself — classified as
oracle-unavailable: the fixture's outcome is success and the skip notice is
printed, although `read_inventory` was invoked once. -/
theorem import_error_during_read_is_skip (f : Fixture) (m : String)
    (hp : f.parse = ParseEvent.ok)
    (ho : f.oracle = OracleEvent.readRaisesImportError m) :
    processFixture f
      = Except.ok { ok := true, oracleCalls := 1,
                    log := ["  " ++ f.name ++ ":", "  XML well-formed: OK",
                            "  ObsPy not available, skipping ObsPy validation"] }
    ∧ validate_with_obspy (OracleEvent.readRaisesImportError m)
        = validate_with_obspy (OracleEvent.importUnavailable m) := by
  refine ⟨?_, rfl⟩
  simp [processFixture, validate_xml_well_formed, validate_with_obspy,
        oracleBody, OracleEvent.readCalls, hp, ho]

/-- Witness for C10 at a concrete fixture whose `read_inventory` raises
`ImportError`. -/
theorem import_error_during_read_is_skip_witness :
    processFixture lateImportErrorFixture
      = Except.ok { ok := true, oracleCalls := 1,
                    log := ["  late.xml:", "  XML well-formed: OK",
                            "  ObsPy not available, skipping ObsPy validation"] }
    ∧ validate_with_obspy
        (OracleEvent.readRaisesImportError "No module named pkg_resources")
        = validate_with_obspy
            (OracleEvent.importUnavailable "No module named pkg_resources") := by
  have h := import_error_during_read_is_skip lateImportErrorFixture
    "No module named pkg_resources" rfl rfl
  exact ⟨by simpa using h.1, h.2⟩

end GenerateVectors
